import Mathlib

/-!
Verification of the CP2 Registration Bot admission/anti-abuse state machine,
shallowly embedded from src/cockpitbot.py (the complete variant that every
part of the design refers to).  Identities are natural numbers, license keys
are strings, timestamps are rationals.  External effects (the membership
query, the license validator endpoint and the invite-link platform call) are
supplied as an oracle environment; the handler records which external calls
it performed so that "stops before the validator call" style properties are
expressible.
-/

abbrev UserId := Nat

/-- Pointwise update of a map modelled as a function. -/
def updMap {α β : Type} [DecidableEq α] (f : α → β) (a : α) (b : β) : α → β :=
  fun x => if x = a then b else f x

/-- `RATE_LIMIT = 5` from cockpitbot.py. -/
def RATE_LIMIT : Nat := 5

/-- `MAX_RETRIES = 3` from cockpitbot.py. -/
def MAX_RETRIES : Nat := 3

/-- `MAX_FAILED_ATTEMPTS = 5` from cockpitbot.py. -/
def MAX_FAILED_ATTEMPTS : Nat := 5

/-- The sliding rate-limit window, 60 seconds, from the literal `60` in
`[t for t in attempt_timestamps[user_id] if now - t < 60]`.  Wall-clock
times are modelled as integers. -/
def RATE_WINDOW : Int := 60

/-- Python `str.lower()` restricted to the ASCII range, which is all the
comparison against `"valid"` can distinguish. -/
def pyLower (s : String) : String := ⟨s.data.map Char.toLower⟩

/-- Python `str.strip()`: drop whitespace from both ends. -/
def pyStrip (s : String) : String :=
  ⟨((s.data.dropWhile Char.isWhitespace).reverse.dropWhile Char.isWhitespace).reverse⟩

/-- JSON scalar values, enough to model the `status` field of the validator
response body (`response_data.get("status", ...)`). -/
inductive Json : Type
  | jstr (s : String)
  | jnum (n : Int)
  | jbool (b : Bool)
  | jnull
deriving DecidableEq, Repr

/-- Embeds `response_data.get("status", "").lower() == "valid"` from
cockpitbot.py line 236.  `none` models an absent status field: Python then
takes the default `""` and the comparison is `False`.  A present non-string
value makes `.lower()` raise `AttributeError`, modelled as `Except.error`. -/
def statusIsValid : Option Json → Except Unit Bool
  | none => Except.ok (pyLower "" == "valid")
  | some (Json.jstr s) => Except.ok (pyLower s == "valid")
  | some _ => Except.error ()

/-- The distinct user-facing replies sent by `handle_license`. -/
inductive Msg : Type
  | blockedNotice
  | rateLimited
  | alreadyMember
  | internalError
  | transientError
  | inviteSuccess (link : String)
  | inviteFailure
  | invalidKey (attemptsLeft : Nat)
deriving DecidableEq, Repr

/-- Replies sent by the `/unblock` admin command. -/
inductive AdminMsg : Type
  | notInList
  | unblocked
deriving DecidableEq, Repr

/-- The process-wide mutable state of cockpitbot.py: `user_data`,
`failed_attempts`, `blocked_users`, `blocked_users_dict`, `session_ended`,
`verification_codes`, `attempt_timestamps`, `verified_users` and
`processing_users`. -/
structure BotState : Type where
  user_data : UserId → Option String
  failed_attempts : UserId → Nat
  blocked_users : Finset UserId
  blocked_users_dict : List (String × UserId)
  session_ended : Finset UserId
  verification_codes : String → Option UserId
  attempt_timestamps : UserId → List Int
  verified_users : Finset UserId
  processing_users : Finset UserId

/-- Oracle for the external world consulted during one submission:
the group-membership query result (already fail-open `false` on error),
the validator call (`none` = `requests.exceptions.RequestException`,
`some st` = parsed JSON body whose status field is `st`), the per-attempt
results of `create_chat_invite_link`, and the current wall-clock time. -/
structure Env : Type where
  inGroup : Bool
  validation : Option (Option Json)
  inviteAttempts : List (Option String)
  now : Int

/-- Result of one `handle_license` run: the post state, the replies sent in
order, whether the membership query and the validator endpoint were reached,
and whether an uncaught Python exception escaped the handler. -/
structure HRes : Type where
  s : BotState
  sent : List Msg
  calledMembership : Bool
  calledValidator : Bool
  exn : Bool

/-- `generate_invite_link` from cockpitbot.py: up to `MAX_RETRIES` attempts,
returning the first successful link, else `None`.  `attempts` is the oracle
of per-attempt platform outcomes. -/
def generate_invite_link (attempts : List (Option String)) : Option String :=
  ((attempts.take MAX_RETRIES).filterMap id).head?

/-- `update.effective_user.username if ... else first_name`: an empty
username string is falsy in Python, so the first name is used then. -/
def displayName (uname : Option String) (fname : String) : String :=
  match uname with
  | some un => if un = "" then fname else un
  | none => fname

/-- Shallow embedding of `handle_license` (cockpitbot.py lines 187-281).
Each step mirrors one statement of the Python handler, in source order:
user-data write, `session_ended` gate, strip, rate-limit prune/check/append,
membership query, `LICENSE_CHECK_URL` falsy guard, validator call,
duplicate-key block, invite generation with bind/reset on success, and the
failed-attempt branch; `processing_users.discard` runs only on the paths
that fall through to line 281. -/
def handle_license (chatType : String) (uid : UserId) (uname : Option String)
    (fname : String) (text : String) (licenseCheckUrl : String)
    (env : Env) (S0 : BotState) : HRes :=
  if chatType ≠ "private" then ⟨S0, [], false, false, false⟩ else
  -- user_data[str(user_id)] = username or first name; save_json_data(...)
  let S1 : BotState :=
    { S0 with user_data := updMap S0.user_data uid (some (displayName uname fname)) }
  if uid ∈ S1.session_ended then ⟨S1, [Msg.blockedNotice], false, false, false⟩ else
  let key := pyStrip text
  -- attempt_timestamps[user_id] = [t for t in ... if now - t < 60]
  let pruned := (S1.attempt_timestamps uid).filter (fun t => env.now - t < RATE_WINDOW)
  if RATE_LIMIT ≤ pruned.length then
    ⟨{ S1 with attempt_timestamps := updMap S1.attempt_timestamps uid pruned },
      [Msg.rateLimited], false, false, false⟩
  else
  let S2 : BotState :=
    { S1 with attempt_timestamps := updMap S1.attempt_timestamps uid (pruned ++ [env.now]) }
  -- if await is_user_in_group(user_id, context): ...
  if env.inGroup then
    let S3 : BotState :=
      if key ≠ "" ∧ (S2.verification_codes key).isNone then
        { S2 with verification_codes := updMap S2.verification_codes key (some uid) }
      else S2
    ⟨S3, [Msg.alreadyMember], true, false, false⟩
  else
  if licenseCheckUrl = "" then ⟨S2, [Msg.internalError], true, false, false⟩ else
  match env.validation with
  | none => ⟨S2, [Msg.transientError], true, true, false⟩
  | some st =>
    match statusIsValid st with
    | Except.error _ =>
      -- AttributeError from `.lower()` on a non-string: propagates uncaught.
      ⟨S2, [], true, true, true⟩
    | Except.ok true =>
      -- `license_key in verification_codes and verification_codes[license_key] != user_id`
      let dupOwner : Bool :=
        match S2.verification_codes key with
        | some owner => owner ≠ uid
        | none => false
      if dupOwner then
        -- duplicate key bound to another identity: block, notify, return.
        let S3 : BotState := { S2 with blocked_users := insert uid S2.blocked_users }
        if uid ∈ S3.session_ended then ⟨S3, [], true, true, false⟩
        else ⟨{ S3 with session_ended := insert uid S3.session_ended },
              [Msg.blockedNotice], true, true, false⟩
      else
        let S3 : BotState := { S2 with verified_users := insert uid S2.verified_users }
        match generate_invite_link env.inviteAttempts with
        | some link =>
          let S4 : BotState :=
            { S3 with verification_codes := updMap S3.verification_codes key (some uid),
                      failed_attempts := updMap S3.failed_attempts uid 0 }
          ⟨{ S4 with processing_users := S4.processing_users.erase uid },
            [Msg.inviteSuccess link], true, true, false⟩
        | none =>
          ⟨{ S3 with processing_users := S3.processing_users.erase uid },
            [Msg.inviteFailure], true, true, false⟩
    | Except.ok false =>
      let fa := S2.failed_attempts uid + 1
      let S3 : BotState := { S2 with failed_attempts := updMap S2.failed_attempts uid fa }
      if MAX_FAILED_ATTEMPTS ≤ fa then
        let S4 : BotState := { S3 with blocked_users := insert uid S3.blocked_users }
        if uid ∈ S4.session_ended then
          ⟨{ S4 with processing_users := S4.processing_users.erase uid }, [], true, true, false⟩
        else
          ⟨{ S4 with session_ended := insert uid S4.session_ended,
                     processing_users := S4.processing_users.erase uid },
            [Msg.blockedNotice], true, true, false⟩
      else
        ⟨{ S3 with processing_users := S3.processing_users.erase uid },
          [Msg.invalidKey (MAX_FAILED_ATTEMPTS - fa)], true, true, false⟩

/-- Shallow embedding of the effect part of `admin_unblock`
(cockpitbot.py lines 346-364), after the target id has been resolved:
remove from `blocked_users`, delete every `blocked_users_dict` entry whose
value is the target, and discard the target from `session_ended`. -/
def admin_unblock (S : BotState) (target : UserId) : BotState × List AdminMsg :=
  if target ∉ S.blocked_users then (S, [AdminMsg.notInList]) else
  ({ S with blocked_users := S.blocked_users.erase target,
            blocked_users_dict := S.blocked_users_dict.filter (fun kv => kv.2 ≠ target),
            session_ended := S.session_ended.erase target },
   [AdminMsg.unblocked])

/-- `"https://"` as a character list. -/
def httpsScheme : List Char := "https://".data

/-- `"http://"` as a character list. -/
def httpScheme : List Char := "http://".data

/-- Python `str.replace("https://", "http://")` on a character list,
scanning left to right, with explicit fuel so that recursion is structural.
The fuel only needs to be at least the list length; each step consumes one
fuel and at least one character. -/
def replaceHttpsAux : Nat → List Char → List Char
  | 0, _ => []
  | _ + 1, [] => []
  | fuel + 1, c :: cs =>
    if httpsScheme <+: (c :: cs) then
      httpScheme ++ replaceHttpsAux fuel (cs.drop 7)
    else
      c :: replaceHttpsAux fuel cs

/-- Python `str.replace("https://", "http://")`: every occurrence of the
pattern is replaced. -/
def replaceHttps (l : List Char) : List Char :=
  replaceHttpsAux l.length l

/-- The startup rewrite of cockpitbot.py lines 41-43:
`if LICENSE_CHECK_URL.startswith("https://"): LICENSE_CHECK_URL =
LICENSE_CHECK_URL.replace("https://", "http://")`. -/
def normalize_license_url (u : List Char) : List Char :=
  if httpsScheme <+: u then replaceHttps u else u

/-! ## Helper lemmas -/

lemma not_https_of_http (X : List Char) : ¬ httpsScheme <+: httpScheme ++ X := by
  rintro ⟨t, ht⟩
  have h4 : (httpScheme ++ X)[4]? = (httpsScheme ++ t)[4]? := by rw [ht]
  rw [List.getElem?_append_left (by decide), List.getElem?_append_left (by decide)] at h4
  exact absurd h4 (by decide)

lemma replaceHttpsAux_https (n : Nat) (t : List Char) :
    replaceHttpsAux (n + 1) (httpsScheme ++ t) =
      httpScheme ++ replaceHttpsAux n t := by
  show replaceHttpsAux (n + 1)
      ('h' :: ('t' :: 't' :: 'p' :: 's' :: ':' :: '/' :: '/' :: t)) = _
  rw [replaceHttpsAux, if_pos ⟨t, rfl⟩]
  rfl

lemma replaceHttps_https (t : List Char) :
    replaceHttps (httpsScheme ++ t) =
      httpScheme ++ replaceHttpsAux (7 + t.length) t := by
  have hlen : (httpsScheme ++ t).length = (7 + t.length) + 1 := by
    simp [httpsScheme]
    omega
  rw [replaceHttps, hlen, replaceHttpsAux_https]

lemma handle_session_gate (uid : UserId) (uname : Option String)
    (fname text url : String) (env : Env) (S : BotState)
    (hse : uid ∈ S.session_ended) :
    handle_license "private" uid uname fname text url env S =
      ⟨{ S with
          user_data := updMap S.user_data uid (some (displayName uname fname)) },
        [Msg.blockedNotice], false, false, false⟩ := by
  simp [handle_license, hse]

lemma handle_rate_reject (uid : UserId) (uname : Option String)
    (fname text url : String) (env : Env) (S : BotState)
    (hse : uid ∉ S.session_ended)
    (hrate : RATE_LIMIT ≤ ((S.attempt_timestamps uid).filter
        (fun t => env.now - t < RATE_WINDOW)).length) :
    handle_license "private" uid uname fname text url env S =
      ⟨{ S with
          user_data := updMap S.user_data uid (some (displayName uname fname)),
          attempt_timestamps := updMap S.attempt_timestamps uid
            ((S.attempt_timestamps uid).filter
              (fun t => env.now - t < RATE_WINDOW)) },
        [Msg.rateLimited], false, false, false⟩ := by
  simp [handle_license, hse, hrate]

lemma handle_service_error (uid : UserId) (uname : Option String)
    (fname text url : String) (env : Env) (S : BotState)
    (hse : uid ∉ S.session_ended)
    (hrate : ((S.attempt_timestamps uid).filter
        (fun t => env.now - t < RATE_WINDOW)).length < RATE_LIMIT)
    (hgroup : env.inGroup = false)
    (hurl : url ≠ "")
    (hval : env.validation = none) :
    handle_license "private" uid uname fname text url env S =
      ⟨{ S with
          user_data := updMap S.user_data uid (some (displayName uname fname)),
          attempt_timestamps := updMap S.attempt_timestamps uid
            ((S.attempt_timestamps uid).filter
              (fun t => env.now - t < RATE_WINDOW) ++ [env.now]) },
        [Msg.transientError], true, true, false⟩ := by
  simp [handle_license, hse, hgroup, hurl, hval, Nat.not_le.mpr hrate]

lemma handle_status_crash (uid : UserId) (uname : Option String)
    (fname text url : String) (env : Env) (S : BotState) (st : Option Json)
    (hse : uid ∉ S.session_ended)
    (hrate : ((S.attempt_timestamps uid).filter
        (fun t => env.now - t < RATE_WINDOW)).length < RATE_LIMIT)
    (hgroup : env.inGroup = false)
    (hurl : url ≠ "")
    (hval : env.validation = some st)
    (hst : statusIsValid st = Except.error ()) :
    handle_license "private" uid uname fname text url env S =
      ⟨{ S with
          user_data := updMap S.user_data uid (some (displayName uname fname)),
          attempt_timestamps := updMap S.attempt_timestamps uid
            ((S.attempt_timestamps uid).filter
              (fun t => env.now - t < RATE_WINDOW) ++ [env.now]) },
        [], true, true, true⟩ := by
  simp [handle_license, hse, hgroup, hurl, hval, hst, Nat.not_le.mpr hrate]

lemma handle_invalid_small (uid : UserId) (uname : Option String)
    (fname text url : String) (env : Env) (S : BotState) (st : Option Json)
    (hse : uid ∉ S.session_ended)
    (hrate : ((S.attempt_timestamps uid).filter
        (fun t => env.now - t < RATE_WINDOW)).length < RATE_LIMIT)
    (hgroup : env.inGroup = false)
    (hurl : url ≠ "")
    (hval : env.validation = some st)
    (hst : statusIsValid st = Except.ok false)
    (hfa : S.failed_attempts uid + 1 < MAX_FAILED_ATTEMPTS) :
    handle_license "private" uid uname fname text url env S =
      ⟨{ S with
          user_data := updMap S.user_data uid (some (displayName uname fname)),
          failed_attempts := updMap S.failed_attempts uid (S.failed_attempts uid + 1),
          attempt_timestamps := updMap S.attempt_timestamps uid
            ((S.attempt_timestamps uid).filter
              (fun t => env.now - t < RATE_WINDOW) ++ [env.now]),
          processing_users := S.processing_users.erase uid },
        [Msg.invalidKey (MAX_FAILED_ATTEMPTS - (S.failed_attempts uid + 1))],
        true, true, false⟩ := by
  simp [handle_license, hse, hrate, hgroup, hurl, hval, hst,
    Nat.not_le.mpr hrate, Nat.not_le.mpr hfa]

lemma handle_invalid_block (uid : UserId) (uname : Option String)
    (fname text url : String) (env : Env) (S : BotState) (st : Option Json)
    (hse : uid ∉ S.session_ended)
    (hrate : ((S.attempt_timestamps uid).filter
        (fun t => env.now - t < RATE_WINDOW)).length < RATE_LIMIT)
    (hgroup : env.inGroup = false)
    (hurl : url ≠ "")
    (hval : env.validation = some st)
    (hst : statusIsValid st = Except.ok false)
    (hfa : MAX_FAILED_ATTEMPTS ≤ S.failed_attempts uid + 1) :
    handle_license "private" uid uname fname text url env S =
      ⟨{ S with
          user_data := updMap S.user_data uid (some (displayName uname fname)),
          failed_attempts := updMap S.failed_attempts uid (S.failed_attempts uid + 1),
          blocked_users := insert uid S.blocked_users,
          session_ended := insert uid S.session_ended,
          attempt_timestamps := updMap S.attempt_timestamps uid
            ((S.attempt_timestamps uid).filter
              (fun t => env.now - t < RATE_WINDOW) ++ [env.now]),
          processing_users := S.processing_users.erase uid },
        [Msg.blockedNotice], true, true, false⟩ := by
  simp [handle_license, hse, hrate, hgroup, hurl, hval, hst, hfa,
    Nat.not_le.mpr hrate]

lemma handle_dup_valid (uid A : UserId) (uname : Option String)
    (fname text url : String) (env : Env) (S : BotState) (st : Option Json)
    (hse : uid ∉ S.session_ended)
    (hrate : ((S.attempt_timestamps uid).filter
        (fun t => env.now - t < RATE_WINDOW)).length < RATE_LIMIT)
    (hgroup : env.inGroup = false)
    (hurl : url ≠ "")
    (hval : env.validation = some st)
    (hst : statusIsValid st = Except.ok true)
    (hown : S.verification_codes (pyStrip text) = some A)
    (hA : A ≠ uid) :
    handle_license "private" uid uname fname text url env S =
      ⟨{ S with
          user_data := updMap S.user_data uid (some (displayName uname fname)),
          blocked_users := insert uid S.blocked_users,
          session_ended := insert uid S.session_ended,
          attempt_timestamps := updMap S.attempt_timestamps uid
            ((S.attempt_timestamps uid).filter
              (fun t => env.now - t < RATE_WINDOW) ++ [env.now]) },
        [Msg.blockedNotice], true, true, false⟩ := by
  simp [handle_license, hse, hrate, hgroup, hurl, hval, hst, hown, hA,
    Nat.not_le.mpr hrate]

lemma handle_valid_ok (uid : UserId) (uname : Option String)
    (fname text url link : String) (env : Env) (S : BotState) (st : Option Json)
    (hse : uid ∉ S.session_ended)
    (hrate : ((S.attempt_timestamps uid).filter
        (fun t => env.now - t < RATE_WINDOW)).length < RATE_LIMIT)
    (hgroup : env.inGroup = false)
    (hurl : url ≠ "")
    (hval : env.validation = some st)
    (hst : statusIsValid st = Except.ok true)
    (hbind : S.verification_codes (pyStrip text) = none ∨
      S.verification_codes (pyStrip text) = some uid)
    (hlink : generate_invite_link env.inviteAttempts = some link) :
    handle_license "private" uid uname fname text url env S =
      ⟨{ S with
          user_data := updMap S.user_data uid (some (displayName uname fname)),
          verification_codes := updMap S.verification_codes (pyStrip text) (some uid),
          failed_attempts := updMap S.failed_attempts uid 0,
          attempt_timestamps := updMap S.attempt_timestamps uid
            ((S.attempt_timestamps uid).filter
              (fun t => env.now - t < RATE_WINDOW) ++ [env.now]),
          verified_users := insert uid S.verified_users,
          processing_users := S.processing_users.erase uid },
        [Msg.inviteSuccess link], true, true, false⟩ := by
  rcases hbind with hb | hb <;>
    simp [handle_license, hse, hrate, hgroup, hurl, hval, hst, hb, hlink,
      Nat.not_le.mpr hrate]

lemma handle_valid_invite_fail (uid : UserId) (uname : Option String)
    (fname text url : String) (env : Env) (S : BotState) (st : Option Json)
    (hse : uid ∉ S.session_ended)
    (hrate : ((S.attempt_timestamps uid).filter
        (fun t => env.now - t < RATE_WINDOW)).length < RATE_LIMIT)
    (hgroup : env.inGroup = false)
    (hurl : url ≠ "")
    (hval : env.validation = some st)
    (hst : statusIsValid st = Except.ok true)
    (hbind : S.verification_codes (pyStrip text) = none ∨
      S.verification_codes (pyStrip text) = some uid)
    (hlink : generate_invite_link env.inviteAttempts = none) :
    handle_license "private" uid uname fname text url env S =
      ⟨{ S with
          user_data := updMap S.user_data uid (some (displayName uname fname)),
          attempt_timestamps := updMap S.attempt_timestamps uid
            ((S.attempt_timestamps uid).filter
              (fun t => env.now - t < RATE_WINDOW) ++ [env.now]),
          verified_users := insert uid S.verified_users,
          processing_users := S.processing_users.erase uid },
        [Msg.inviteFailure], true, true, false⟩ := by
  rcases hbind with hb | hb <;>
    simp [handle_license, hse, hrate, hgroup, hurl, hval, hst, hb, hlink,
      Nat.not_le.mpr hrate]

lemma generate_invite_link_none (l : List (Option String))
    (hfail : ∀ x ∈ l.take MAX_RETRIES, x = none) :
    generate_invite_link l = none := by
  have h : (l.take MAX_RETRIES).filterMap id = [] := by
    rw [List.filterMap_eq_nil_iff]
    intro a ha
    exact hfail a ha
  simp [generate_invite_link, h]

/-- A baseline empty bot state used by concrete witnesses. -/
def S_empty : BotState :=
  ⟨fun _ => none, fun _ => 0, ∅, [], ∅, fun _ => none, fun _ => [], ∅, ∅⟩

/-! ## Claim theorems -/

/-- C10: at startup, a configured validator endpoint URL beginning with
"https://" is rewritten so that it begins with "http://" and no longer
begins with "https://"; hence every validation request uses the plain-HTTP
scheme and the TLS-adapter branch guarded by
`LICENSE_CHECK_URL.startswith("https://")` is unreachable. -/
theorem C10_https_rewritten_to_http (u : List Char)
    (h : httpsScheme <+: u) :
    ¬ httpsScheme <+: normalize_license_url u ∧
      httpScheme <+: normalize_license_url u := by
  obtain ⟨t, ht⟩ := h
  subst ht
  rw [normalize_license_url, if_pos ⟨t, rfl⟩, replaceHttps_https]
  exact ⟨not_https_of_http _, ⟨_, rfl⟩⟩

/-- Witness for C10 at the concrete URL "https://host/check". -/
theorem C10_https_rewritten_to_http_witness :
    httpsScheme <+: "https://host/check".data ∧
      (¬ httpsScheme <+: normalize_license_url "https://host/check".data ∧
        httpScheme <+: normalize_license_url "https://host/check".data) :=
  ⟨by decide, C10_https_rewritten_to_http "https://host/check".data (by decide)⟩

/-- C1: a key already bound in the usage registry to identity `A`, submitted
by a distinct identity `uid` that the validator reports valid, leaves every
binding unchanged (in particular the key still maps to `A`), adds `uid` to
the blocked set and answers with the blocked notice; the key is never
rebound. -/
theorem C1_duplicate_key_blocks_second_identity
    (uid A : UserId) (uname : Option String) (fname text url : String)
    (env : Env) (S : BotState) (st : Option Json)
    (hse : uid ∉ S.session_ended)
    (hrate : ((S.attempt_timestamps uid).filter
        (fun t => env.now - t < RATE_WINDOW)).length < RATE_LIMIT)
    (hgroup : env.inGroup = false)
    (hurl : url ≠ "")
    (hval : env.validation = some st)
    (hst : statusIsValid st = Except.ok true)
    (hown : S.verification_codes (pyStrip text) = some A)
    (hA : A ≠ uid) :
    (handle_license "private" uid uname fname text url env S).s.verification_codes
        = S.verification_codes ∧
      (handle_license "private" uid uname fname text url env S).s.verification_codes
        (pyStrip text) = some A ∧
      uid ∈ (handle_license "private" uid uname fname text url env S).s.blocked_users ∧
      (handle_license "private" uid uname fname text url env S).sent
        = [Msg.blockedNotice] := by
  rw [handle_dup_valid uid A uname fname text url env S st hse hrate hgroup
    hurl hval hst hown hA]
  exact ⟨rfl, hown, Finset.mem_insert_self _ _, rfl⟩

/-- Witness for C1: key "KEY" bound to identity 1, submitted by identity 2. -/
theorem C1_duplicate_key_blocks_second_identity_witness :
    (updMap (fun _ => none) "KEY" (some 1)) (pyStrip "KEY") = some 1 ∧
      ((handle_license "private" 2 none "bob" "KEY" "u"
          ⟨false, some (some (Json.jstr "Valid")), [some "L"], 0⟩
          { S_empty with
            verification_codes := updMap (fun _ => none) "KEY" (some 1) }).s.verification_codes
          = { S_empty with
              verification_codes :=
                updMap (fun _ => none) "KEY" (some 1) }.verification_codes ∧
        (handle_license "private" 2 none "bob" "KEY" "u"
          ⟨false, some (some (Json.jstr "Valid")), [some "L"], 0⟩
          { S_empty with
            verification_codes := updMap (fun _ => none) "KEY" (some 1) }).s.verification_codes
          (pyStrip "KEY") = some 1 ∧
        2 ∈ (handle_license "private" 2 none "bob" "KEY" "u"
          ⟨false, some (some (Json.jstr "Valid")), [some "L"], 0⟩
          { S_empty with
            verification_codes := updMap (fun _ => none) "KEY" (some 1) }).s.blocked_users ∧
        (handle_license "private" 2 none "bob" "KEY" "u"
          ⟨false, some (some (Json.jstr "Valid")), [some "L"], 0⟩
          { S_empty with
            verification_codes := updMap (fun _ => none) "KEY" (some 1) }).sent
          = [Msg.blockedNotice]) :=
  ⟨by decide,
    C1_duplicate_key_blocks_second_identity 2 1 none "bob" "KEY" "u"
      ⟨false, some (some (Json.jstr "Valid")), [some "L"], 0⟩
      { S_empty with verification_codes := updMap (fun _ => none) "KEY" (some 1) }
      (some (Json.jstr "Valid"))
      (by decide) (by decide) (by decide) (by decide) (by decide) rfl
      (by decide) (by decide)⟩

/-- C2 (amended): the entry gate of `handle_license` is the in-memory
`session_ended` set, not the persisted block list.  For an identity in
`session_ended`, the submission is answered with the blocked notice and
processing stops before rate-limit bookkeeping, the membership query, the
validator call and any further state mutation — except that the user-data
display-name store has already been updated before the gate. -/
theorem C2_session_gate_stops_processing
    (uid : UserId) (uname : Option String) (fname text url : String)
    (env : Env) (S : BotState)
    (hse : uid ∈ S.session_ended) :
    (handle_license "private" uid uname fname text url env S).sent
        = [Msg.blockedNotice] ∧
      (handle_license "private" uid uname fname text url env S).calledMembership
        = false ∧
      (handle_license "private" uid uname fname text url env S).calledValidator
        = false ∧
      (handle_license "private" uid uname fname text url env S).s.failed_attempts
        = S.failed_attempts ∧
      (handle_license "private" uid uname fname text url env S).s.attempt_timestamps
        = S.attempt_timestamps ∧
      (handle_license "private" uid uname fname text url env S).s.blocked_users
        = S.blocked_users ∧
      (handle_license "private" uid uname fname text url env S).s.session_ended
        = S.session_ended ∧
      (handle_license "private" uid uname fname text url env S).s.verification_codes
        = S.verification_codes ∧
      (handle_license "private" uid uname fname text url env S).s.user_data
        = updMap S.user_data uid (some (displayName uname fname)) := by
  rw [handle_session_gate uid uname fname text url env S hse]
  exact ⟨rfl, rfl, rfl, rfl, rfl, rfl, rfl, rfl, rfl⟩

/-- Witness for C2's amended theorem: identity 7 with a terminated session. -/
theorem C2_session_gate_stops_processing_witness :
    7 ∈ ({ S_empty with session_ended := {7} } : BotState).session_ended ∧
      (handle_license "private" 7 none "bob" "KEY" "u"
          ⟨false, some (some (Json.jstr "Valid")), [], 0⟩
          { S_empty with session_ended := {7} }).sent = [Msg.blockedNotice] ∧
      (handle_license "private" 7 none "bob" "KEY" "u"
          ⟨false, some (some (Json.jstr "Valid")), [], 0⟩
          { S_empty with session_ended := {7} }).calledValidator = false :=
  ⟨by decide,
    (C2_session_gate_stops_processing 7 none "bob" "KEY" "u"
        ⟨false, some (some (Json.jstr "Valid")), [], 0⟩
        { S_empty with session_ended := {7} } (by decide)).1,
    (C2_session_gate_stops_processing 7 none "bob" "KEY" "u"
        ⟨false, some (some (Json.jstr "Valid")), [], 0⟩
        { S_empty with session_ended := {7} } (by decide)).2.2.1⟩

/-- Counterexample to C2 as stated: identity 7 is in the persisted block
list (`blocked_users`) but not in `session_ended` (the situation after a
process restart, since `session_ended` starts empty).  Its submission is
not answered with a blocked notice; the membership query and the validator
call both happen, and its failed-attempt counter is mutated. -/
theorem C2_counterexample :
    7 ∈ ({ S_empty with blocked_users := {7} } : BotState).blocked_users ∧
      (handle_license "private" 7 none "bob" "KEY" "u"
          ⟨false, some (some (Json.jstr "bad")), [], 0⟩
          { S_empty with blocked_users := {7} }).calledMembership = true ∧
      (handle_license "private" 7 none "bob" "KEY" "u"
          ⟨false, some (some (Json.jstr "bad")), [], 0⟩
          { S_empty with blocked_users := {7} }).calledValidator = true ∧
      (handle_license "private" 7 none "bob" "KEY" "u"
          ⟨false, some (some (Json.jstr "bad")), [], 0⟩
          { S_empty with blocked_users := {7} }).sent = [Msg.invalidKey 4] ∧
      (handle_license "private" 7 none "bob" "KEY" "u"
          ⟨false, some (some (Json.jstr "bad")), [], 0⟩
          { S_empty with blocked_users := {7} }).s.failed_attempts 7 = 1 := by
  exact ⟨by decide, by decide, by decide, by decide, by decide⟩

/-- C3 (amended): `handle_license` in cockpitbot.py never consults or sets
the in-flight marker: a submission from an identity already in
`processing_users` is processed exactly like any other (here: an invalid
key still increments the counter and receives the remaining-attempts
reply), and the marker is only discarded — and only on the paths that
reach a validation outcome. -/
theorem C3_no_inflight_guard
    (uid : UserId) (uname : Option String) (fname text url : String)
    (env : Env) (S : BotState) (st : Option Json)
    (hp : uid ∈ S.processing_users)
    (hse : uid ∉ S.session_ended)
    (hrate : ((S.attempt_timestamps uid).filter
        (fun t => env.now - t < RATE_WINDOW)).length < RATE_LIMIT)
    (hgroup : env.inGroup = false)
    (hurl : url ≠ "")
    (hval : env.validation = some st)
    (hst : statusIsValid st = Except.ok false)
    (hfa : S.failed_attempts uid + 1 < MAX_FAILED_ATTEMPTS) :
    (handle_license "private" uid uname fname text url env S).sent
        = [Msg.invalidKey (MAX_FAILED_ATTEMPTS - (S.failed_attempts uid + 1))] ∧
      (handle_license "private" uid uname fname text url env S).s.failed_attempts uid
        = S.failed_attempts uid + 1 ∧
      (handle_license "private" uid uname fname text url env S).s.processing_users
        = S.processing_users.erase uid := by
  rw [handle_invalid_small uid uname fname text url env S st hse hrate hgroup
    hurl hval hst hfa]
  exact ⟨rfl, by simp [updMap], rfl⟩

/-- Witness for C3's amended theorem: identity 7 already marked in-flight. -/
theorem C3_no_inflight_guard_witness :
    7 ∈ ({ S_empty with processing_users := {7} } : BotState).processing_users ∧
      (handle_license "private" 7 none "bob" "KEY" "u"
          ⟨false, some (some (Json.jstr "bad")), [], 0⟩
          { S_empty with processing_users := {7} }).sent = [Msg.invalidKey 4] ∧
      (handle_license "private" 7 none "bob" "KEY" "u"
          ⟨false, some (some (Json.jstr "bad")), [], 0⟩
          { S_empty with processing_users := {7} }).s.failed_attempts 7 = 1 :=
  ⟨by decide,
    (C3_no_inflight_guard 7 none "bob" "KEY" "u"
        ⟨false, some (some (Json.jstr "bad")), [], 0⟩
        { S_empty with processing_users := {7} } (some (Json.jstr "bad"))
        (by decide) (by decide) (by decide) (by decide) (by decide) rfl rfl
        (by decide)).1,
    (C3_no_inflight_guard 7 none "bob" "KEY" "u"
        ⟨false, some (some (Json.jstr "bad")), [], 0⟩
        { S_empty with processing_users := {7} } (some (Json.jstr "bad"))
        (by decide) (by decide) (by decide) (by decide) (by decide) rfl rfl
        (by decide)).2.1⟩

/-- Counterexample to C3 as stated: identity 7 is already marked in-flight
(`processing_users = {7}`), yet its submission is not silently ignored —
it is fully processed: a reply is sent and its counter is incremented. -/
theorem C3_counterexample :
    7 ∈ ({ S_empty with processing_users := {7} } : BotState).processing_users ∧
      (handle_license "private" 7 none "alice" "K2" "u"
          ⟨false, some (some (Json.jstr "nope")), [], 0⟩
          { S_empty with processing_users := {7} }).sent ≠ [] ∧
      (handle_license "private" 7 none "alice" "K2" "u"
          ⟨false, some (some (Json.jstr "nope")), [], 0⟩
          { S_empty with processing_users := {7} }).s.failed_attempts 7 = 1 := by
  exact ⟨by decide, by decide, by decide⟩

lemma handle_invalid_step (uid : UserId) (uname : Option String)
    (fname text url : String) (env : Env) (S : BotState) (st : Option Json)
    (n k : Nat)
    (hse : uid ∉ S.session_ended)
    (hbl : uid ∉ S.blocked_users)
    (hgroup : env.inGroup = false)
    (hurl : url ≠ "")
    (hval : env.validation = some st)
    (hst : statusIsValid st = Except.ok false)
    (hfa : S.failed_attempts uid = n)
    (hn : n + 1 < MAX_FAILED_ATTEMPTS)
    (hlen : (S.attempt_timestamps uid).length ≤ k)
    (hk : k < RATE_LIMIT) :
    (handle_license "private" uid uname fname text url env S).sent
        = [Msg.invalidKey (MAX_FAILED_ATTEMPTS - (n + 1))] ∧
      (handle_license "private" uid uname fname text url env S).s.failed_attempts uid
        = n + 1 ∧
      uid ∉ (handle_license "private" uid uname fname text url env S).s.session_ended ∧
      uid ∉ (handle_license "private" uid uname fname text url env S).s.blocked_users ∧
      ((handle_license "private" uid uname fname text url env S).s.attempt_timestamps
        uid).length ≤ k + 1 := by
  have hrate : ((S.attempt_timestamps uid).filter
      (fun t => env.now - t < RATE_WINDOW)).length < RATE_LIMIT :=
    lt_of_le_of_lt (le_trans (List.length_filter_le _ _) hlen) hk
  rw [handle_invalid_small uid uname fname text url env S st hse hrate hgroup
    hurl hval hst (hfa ▸ hn)]
  refine ⟨by rw [hfa], by simp [updMap, hfa], hse, hbl, ?_⟩
  have hf := List.length_filter_le
    (fun t => decide (env.now - t < RATE_WINDOW)) (S.attempt_timestamps uid)
  simp only [updMap, eq_self_iff_true, if_true, List.length_append,
    List.length_cons, List.length_nil] at *
  omega

lemma handle_invalid_final (uid : UserId) (uname : Option String)
    (fname text url : String) (env : Env) (S : BotState) (st : Option Json)
    (n k : Nat)
    (hse : uid ∉ S.session_ended)
    (hgroup : env.inGroup = false)
    (hurl : url ≠ "")
    (hval : env.validation = some st)
    (hst : statusIsValid st = Except.ok false)
    (hfa : S.failed_attempts uid = n)
    (hn : MAX_FAILED_ATTEMPTS ≤ n + 1)
    (hlen : (S.attempt_timestamps uid).length ≤ k)
    (hk : k < RATE_LIMIT) :
    (handle_license "private" uid uname fname text url env S).sent
        = [Msg.blockedNotice] ∧
      (handle_license "private" uid uname fname text url env S).s.failed_attempts uid
        = n + 1 ∧
      uid ∈ (handle_license "private" uid uname fname text url env S).s.blocked_users := by
  have hrate : ((S.attempt_timestamps uid).filter
      (fun t => env.now - t < RATE_WINDOW)).length < RATE_LIMIT :=
    lt_of_le_of_lt (le_trans (List.length_filter_le _ _) hlen) hk
  rw [handle_invalid_block uid uname fname text url env S st hse hrate hgroup
    hurl hval hst (hfa ▸ hn)]
  exact ⟨rfl, by simp [updMap, hfa], Finset.mem_insert_self _ _⟩

/-- C4: with the threshold at 5, an identity starting from a zero counter
that submits validator-rejected keys five times in a row is told 4,3,2,1
attempts remain on the first four (staying unblocked), and is blocked with
the blocked notice on the fifth; each failure raises the counter by exactly
one, and the reported remainder is the threshold minus the counter. -/
theorem C4_threshold_monotonic
    (uid : UserId) (uname : Option String) (fname url : String)
    (t1 t2 t3 t4 t5 : String) (e1 e2 e3 e4 e5 : Env)
    (s1 s2 s3 s4 s5 : Option Json) (S0 : BotState)
    (r1 r2 r3 r4 r5 : HRes)
    (hse : uid ∉ S0.session_ended)
    (hbl : uid ∉ S0.blocked_users)
    (hfa : S0.failed_attempts uid = 0)
    (hts : S0.attempt_timestamps uid = [])
    (hurl : url ≠ "")
    (hg1 : e1.inGroup = false) (hv1 : e1.validation = some s1)
    (hs1 : statusIsValid s1 = Except.ok false)
    (hg2 : e2.inGroup = false) (hv2 : e2.validation = some s2)
    (hs2 : statusIsValid s2 = Except.ok false)
    (hg3 : e3.inGroup = false) (hv3 : e3.validation = some s3)
    (hs3 : statusIsValid s3 = Except.ok false)
    (hg4 : e4.inGroup = false) (hv4 : e4.validation = some s4)
    (hs4 : statusIsValid s4 = Except.ok false)
    (hg5 : e5.inGroup = false) (hv5 : e5.validation = some s5)
    (hs5 : statusIsValid s5 = Except.ok false)
    (hr1 : handle_license "private" uid uname fname t1 url e1 S0 = r1)
    (hr2 : handle_license "private" uid uname fname t2 url e2 r1.s = r2)
    (hr3 : handle_license "private" uid uname fname t3 url e3 r2.s = r3)
    (hr4 : handle_license "private" uid uname fname t4 url e4 r3.s = r4)
    (hr5 : handle_license "private" uid uname fname t5 url e5 r4.s = r5) :
    r1.sent = [Msg.invalidKey 4] ∧ r1.s.failed_attempts uid = 1 ∧
      r2.sent = [Msg.invalidKey 3] ∧ r2.s.failed_attempts uid = 2 ∧
      r3.sent = [Msg.invalidKey 2] ∧ r3.s.failed_attempts uid = 3 ∧
      r4.sent = [Msg.invalidKey 1] ∧ r4.s.failed_attempts uid = 4 ∧
      uid ∉ r4.s.blocked_users ∧
      r5.sent = [Msg.blockedNotice] ∧ r5.s.failed_attempts uid = 5 ∧
      uid ∈ r5.s.blocked_users := by
  have h1 := handle_invalid_step uid uname fname t1 url e1 S0 s1 0 0 hse hbl
    hg1 hurl hv1 hs1 hfa (by decide) (by simp [hts]) (by decide)
  rw [hr1] at h1
  obtain ⟨h1sent, h1fa, h1se, h1bl, h1len⟩ := h1
  have h2 := handle_invalid_step uid uname fname t2 url e2 r1.s s2 1 1 h1se
    h1bl hg2 hurl hv2 hs2 h1fa (by decide) h1len (by decide)
  rw [hr2] at h2
  obtain ⟨h2sent, h2fa, h2se, h2bl, h2len⟩ := h2
  have h3 := handle_invalid_step uid uname fname t3 url e3 r2.s s3 2 2 h2se
    h2bl hg3 hurl hv3 hs3 h2fa (by decide) h2len (by decide)
  rw [hr3] at h3
  obtain ⟨h3sent, h3fa, h3se, h3bl, h3len⟩ := h3
  have h4 := handle_invalid_step uid uname fname t4 url e4 r3.s s4 3 3 h3se
    h3bl hg4 hurl hv4 hs4 h3fa (by decide) h3len (by decide)
  rw [hr4] at h4
  obtain ⟨h4sent, h4fa, h4se, h4bl, h4len⟩ := h4
  have h5 := handle_invalid_final uid uname fname t5 url e5 r4.s s5 4 4 h4se
    hg5 hurl hv5 hs5 h4fa (by decide) h4len (by decide)
  rw [hr5] at h5
  obtain ⟨h5sent, h5fa, h5bl⟩ := h5
  exact ⟨h1sent, h1fa, h2sent, h2fa, h3sent, h3fa, h4sent, h4fa, h4bl,
    h5sent, h5fa, h5bl⟩

/-- A validator environment reporting an invalid key at time `k`,
used by concrete witnesses. -/
def envBad (k : Int) : Env := ⟨false, some (some (Json.jstr "bad")), [], k⟩

/-- First submission of the concrete five-failure run. -/
def C4r1 : HRes := handle_license "private" 7 none "bob" "K" "u" (envBad 1) S_empty

/-- Second submission of the concrete five-failure run. -/
def C4r2 : HRes := handle_license "private" 7 none "bob" "K" "u" (envBad 2) C4r1.s

/-- Third submission of the concrete five-failure run. -/
def C4r3 : HRes := handle_license "private" 7 none "bob" "K" "u" (envBad 3) C4r2.s

/-- Fourth submission of the concrete five-failure run. -/
def C4r4 : HRes := handle_license "private" 7 none "bob" "K" "u" (envBad 4) C4r3.s

/-- Fifth submission of the concrete five-failure run. -/
def C4r5 : HRes := handle_license "private" 7 none "bob" "K" "u" (envBad 5) C4r4.s

/-- Witness for C4: identity 7 submitting "K" five times against a
validator that reports it invalid. -/
theorem C4_threshold_monotonic_witness :
    S_empty.failed_attempts 7 = 0 ∧
      (C4r1.sent = [Msg.invalidKey 4] ∧ C4r1.s.failed_attempts 7 = 1 ∧
        C4r2.sent = [Msg.invalidKey 3] ∧ C4r2.s.failed_attempts 7 = 2 ∧
        C4r3.sent = [Msg.invalidKey 2] ∧ C4r3.s.failed_attempts 7 = 3 ∧
        C4r4.sent = [Msg.invalidKey 1] ∧ C4r4.s.failed_attempts 7 = 4 ∧
        7 ∉ C4r4.s.blocked_users ∧
        C4r5.sent = [Msg.blockedNotice] ∧ C4r5.s.failed_attempts 7 = 5 ∧
        7 ∈ C4r5.s.blocked_users) :=
  ⟨by decide,
    C4_threshold_monotonic 7 none "bob" "u" "K" "K" "K" "K" "K"
      (envBad 1) (envBad 2) (envBad 3) (envBad 4) (envBad 5)
      (some (Json.jstr "bad")) (some (Json.jstr "bad")) (some (Json.jstr "bad"))
      (some (Json.jstr "bad")) (some (Json.jstr "bad"))
      S_empty C4r1 C4r2 C4r3 C4r4 C4r5
      (by decide) (by decide) (by decide) (by decide) (by decide)
      rfl rfl rfl rfl rfl rfl rfl rfl rfl rfl rfl rfl rfl rfl rfl
      rfl rfl rfl rfl rfl⟩

/-- C5: when, after a successful validation of an unbound (or self-bound)
key, invite-link generation fails on all `MAX_RETRIES` attempts, the user
receives the operator-contact error and neither the usage registry nor the
failed-attempt counters are touched, so the submission can be retried. -/
theorem C5_invite_exhaustion_retry_safe
    (uid : UserId) (uname : Option String) (fname text url : String)
    (env : Env) (S : BotState) (st : Option Json)
    (hse : uid ∉ S.session_ended)
    (hrate : ((S.attempt_timestamps uid).filter
        (fun t => env.now - t < RATE_WINDOW)).length < RATE_LIMIT)
    (hgroup : env.inGroup = false)
    (hurl : url ≠ "")
    (hval : env.validation = some st)
    (hst : statusIsValid st = Except.ok true)
    (hbind : S.verification_codes (pyStrip text) = none ∨
      S.verification_codes (pyStrip text) = some uid)
    (hfail : ∀ x ∈ env.inviteAttempts.take MAX_RETRIES, x = none) :
    (handle_license "private" uid uname fname text url env S).sent
        = [Msg.inviteFailure] ∧
      (handle_license "private" uid uname fname text url env S).s.verification_codes
        = S.verification_codes ∧
      (handle_license "private" uid uname fname text url env S).s.failed_attempts
        = S.failed_attempts := by
  rw [handle_valid_invite_fail uid uname fname text url env S st hse hrate
    hgroup hurl hval hst hbind (generate_invite_link_none _ hfail)]
  exact ⟨rfl, rfl, rfl⟩

/-- Witness for C5: identity 7, key "K", three failed invite attempts. -/
theorem C5_invite_exhaustion_retry_safe_witness :
    (∀ x ∈ ([none, none, none] : List (Option String)).take MAX_RETRIES,
        x = none) ∧
      ((handle_license "private" 7 none "bob" "K" "u"
          ⟨false, some (some (Json.jstr "VALID")), [none, none, none], 0⟩
          S_empty).sent = [Msg.inviteFailure] ∧
        (handle_license "private" 7 none "bob" "K" "u"
          ⟨false, some (some (Json.jstr "VALID")), [none, none, none], 0⟩
          S_empty).s.verification_codes = S_empty.verification_codes ∧
        (handle_license "private" 7 none "bob" "K" "u"
          ⟨false, some (some (Json.jstr "VALID")), [none, none, none], 0⟩
          S_empty).s.failed_attempts = S_empty.failed_attempts) :=
  ⟨by decide,
    C5_invite_exhaustion_retry_safe 7 none "bob" "K" "u"
      ⟨false, some (some (Json.jstr "VALID")), [none, none, none], 0⟩
      S_empty (some (Json.jstr "VALID"))
      (by decide) (by decide) (by decide) (by decide) (by decide) rfl
      (Or.inl (by decide)) (by decide)⟩

/-- C6: a validator service error (network failure, non-2xx response or
unparsable body) answers with the transient-error notice and leaves the
failed-attempt counters, the usage registry and the block set unchanged. -/
theorem C6_service_error_not_counted
    (uid : UserId) (uname : Option String) (fname text url : String)
    (env : Env) (S : BotState)
    (hse : uid ∉ S.session_ended)
    (hrate : ((S.attempt_timestamps uid).filter
        (fun t => env.now - t < RATE_WINDOW)).length < RATE_LIMIT)
    (hgroup : env.inGroup = false)
    (hurl : url ≠ "")
    (hval : env.validation = none) :
    (handle_license "private" uid uname fname text url env S).sent
        = [Msg.transientError] ∧
      (handle_license "private" uid uname fname text url env S).s.failed_attempts
        = S.failed_attempts ∧
      (handle_license "private" uid uname fname text url env S).s.verification_codes
        = S.verification_codes ∧
      (handle_license "private" uid uname fname text url env S).s.blocked_users
        = S.blocked_users := by
  rw [handle_service_error uid uname fname text url env S hse hrate hgroup
    hurl hval]
  exact ⟨rfl, rfl, rfl, rfl⟩

/-- Witness for C6: identity 7 hitting a validator outage. -/
theorem C6_service_error_not_counted_witness :
    (⟨false, none, [], 0⟩ : Env).validation = none ∧
      ((handle_license "private" 7 none "bob" "K" "u" ⟨false, none, [], 0⟩
          S_empty).sent = [Msg.transientError] ∧
        (handle_license "private" 7 none "bob" "K" "u" ⟨false, none, [], 0⟩
          S_empty).s.failed_attempts = S_empty.failed_attempts ∧
        (handle_license "private" 7 none "bob" "K" "u" ⟨false, none, [], 0⟩
          S_empty).s.verification_codes = S_empty.verification_codes ∧
        (handle_license "private" 7 none "bob" "K" "u" ⟨false, none, [], 0⟩
          S_empty).s.blocked_users = S_empty.blocked_users) :=
  ⟨by decide,
    C6_service_error_not_counted 7 none "bob" "K" "u" ⟨false, none, [], 0⟩
      S_empty (by decide) (by decide) (by decide) (by decide) (by decide)⟩

/-- C7: the rate limiter first prunes timestamps older than the 60-unit
window; if at least `RATE_LIMIT = 5` remain, the submission is rejected
before the membership query and the validator call and the stored list is
exactly the pruned list; otherwise the current time is appended and
processing continues.  If the whole window has elapsed since every stored
timestamp, the submission is accepted again and recorded alone. -/
theorem C7_rate_limiter_sliding_window
    (uid : UserId) (uname : Option String) (fname text url : String)
    (env : Env) (S : BotState)
    (hse : uid ∉ S.session_ended) :
    (RATE_LIMIT ≤ ((S.attempt_timestamps uid).filter
        (fun t => env.now - t < RATE_WINDOW)).length →
      (handle_license "private" uid uname fname text url env S).sent
          = [Msg.rateLimited] ∧
        (handle_license "private" uid uname fname text url env S).calledMembership
          = false ∧
        (handle_license "private" uid uname fname text url env S).calledValidator
          = false ∧
        (handle_license "private" uid uname fname text url env S).s.attempt_timestamps
          uid = (S.attempt_timestamps uid).filter
            (fun t => env.now - t < RATE_WINDOW)) ∧
      (((S.attempt_timestamps uid).filter
          (fun t => env.now - t < RATE_WINDOW)).length < RATE_LIMIT →
        (handle_license "private" uid uname fname text url env S).s.attempt_timestamps
          uid = (S.attempt_timestamps uid).filter
            (fun t => env.now - t < RATE_WINDOW) ++ [env.now]) ∧
      ((∀ t ∈ S.attempt_timestamps uid, RATE_WINDOW ≤ env.now - t) →
        (handle_license "private" uid uname fname text url env S).s.attempt_timestamps
          uid = [env.now]) := by
  have happend : ((S.attempt_timestamps uid).filter
      (fun t => env.now - t < RATE_WINDOW)).length < RATE_LIMIT →
      (handle_license "private" uid uname fname text url env S).s.attempt_timestamps
        uid = (S.attempt_timestamps uid).filter
          (fun t => env.now - t < RATE_WINDOW) ++ [env.now] := by
    intro h
    have hh := Nat.not_le.mpr h
    simp only [handle_license]
    simp only [hse, hh, ne_eq, not_true_eq_false, not_false_eq_true, if_true,
      if_false, ite_not, ite_false, ite_true, reduceIte]
    repeat' split
    all_goals simp [updMap, hse, hh]
  refine ⟨?_, happend, ?_⟩
  · intro h
    rw [handle_rate_reject uid uname fname text url env S hse h]
    exact ⟨rfl, rfl, rfl, by simp [updMap]⟩
  · intro hall
    have hnil : (S.attempt_timestamps uid).filter
        (fun t => env.now - t < RATE_WINDOW) = [] := by
      simp only [List.filter_eq_nil_iff, decide_eq_true_eq, not_lt]
      exact hall
    have := happend (by simp [hnil, RATE_LIMIT])
    rw [hnil] at this
    simpa using this

/-- Witness for C7: identity 7 with five in-window timestamps at time 50
(rejection case) and, through the same theorem, the accept and
window-elapsed cases. -/
theorem C7_rate_limiter_sliding_window_witness :
    7 ∉ ({ S_empty with
        attempt_timestamps := updMap S_empty.attempt_timestamps 7
          [0, 10, 20, 30, 40] } : BotState).session_ended ∧
      (RATE_LIMIT ≤ ((({ S_empty with
          attempt_timestamps := updMap S_empty.attempt_timestamps 7
            [0, 10, 20, 30, 40] } : BotState).attempt_timestamps 7).filter
            (fun t => (50 : Int) - t < RATE_WINDOW)).length →
        (handle_license "private" 7 none "bob" "K" "u"
            ⟨false, some (some (Json.jstr "Valid")), [some "L"], 50⟩
            { S_empty with
              attempt_timestamps := updMap S_empty.attempt_timestamps 7
                [0, 10, 20, 30, 40] }).sent = [Msg.rateLimited] ∧
          (handle_license "private" 7 none "bob" "K" "u"
            ⟨false, some (some (Json.jstr "Valid")), [some "L"], 50⟩
            { S_empty with
              attempt_timestamps := updMap S_empty.attempt_timestamps 7
                [0, 10, 20, 30, 40] }).calledMembership = false ∧
          (handle_license "private" 7 none "bob" "K" "u"
            ⟨false, some (some (Json.jstr "Valid")), [some "L"], 50⟩
            { S_empty with
              attempt_timestamps := updMap S_empty.attempt_timestamps 7
                [0, 10, 20, 30, 40] }).calledValidator = false ∧
          (handle_license "private" 7 none "bob" "K" "u"
            ⟨false, some (some (Json.jstr "Valid")), [some "L"], 50⟩
            { S_empty with
              attempt_timestamps := updMap S_empty.attempt_timestamps 7
                [0, 10, 20, 30, 40] }).s.attempt_timestamps 7
            = ((({ S_empty with
                attempt_timestamps := updMap S_empty.attempt_timestamps 7
                  [0, 10, 20, 30, 40] } : BotState).attempt_timestamps 7).filter
                (fun t => (50 : Int) - t < RATE_WINDOW))) :=
  ⟨by decide,
    (C7_rate_limiter_sliding_window 7 none "bob" "K" "u"
        ⟨false, some (some (Json.jstr "Valid")), [some "L"], 50⟩
        { S_empty with
          attempt_timestamps := updMap S_empty.attempt_timestamps 7
            [0, 10, 20, 30, 40] } (by decide)).1⟩

/-- C8 (amended): the admin unblock of cockpitbot.py removes the identity
from the automatic block set, deletes every manual-block entry pointing to
it, and clears it from the session-ended set — but it neither resets the
failed-attempt counter nor removes any license-key binding owned by the
identity. -/
theorem C8_unblock_removes_block_entry_only
    (S : BotState) (target : UserId)
    (hb : target ∈ S.blocked_users) :
    (admin_unblock S target).2 = [AdminMsg.unblocked] ∧
      (admin_unblock S target).1.blocked_users = S.blocked_users.erase target ∧
      (admin_unblock S target).1.session_ended = S.session_ended.erase target ∧
      (admin_unblock S target).1.blocked_users_dict
        = S.blocked_users_dict.filter (fun kv => kv.2 ≠ target) ∧
      (admin_unblock S target).1.failed_attempts = S.failed_attempts ∧
      (admin_unblock S target).1.verification_codes = S.verification_codes := by
  simp [admin_unblock, hb]

/-- Concrete state for the C8 witness and counterexample: identity 7 is
blocked, has failed-attempt counter 5, and owns the binding for key "K". -/
def C8S : BotState :=
  { S_empty with
      blocked_users := ({7} : Finset UserId),
      failed_attempts := updMap S_empty.failed_attempts 7 5,
      verification_codes := updMap S_empty.verification_codes "K" (some 7) }

/-- Witness for C8's amended theorem at the concrete state `C8S`. -/
theorem C8_unblock_removes_block_entry_only_witness :
    7 ∈ C8S.blocked_users ∧
      ((admin_unblock C8S 7).2 = [AdminMsg.unblocked] ∧
        (admin_unblock C8S 7).1.blocked_users = C8S.blocked_users.erase 7 ∧
        (admin_unblock C8S 7).1.session_ended = C8S.session_ended.erase 7 ∧
        (admin_unblock C8S 7).1.blocked_users_dict
          = C8S.blocked_users_dict.filter (fun kv => kv.2 ≠ 7) ∧
        (admin_unblock C8S 7).1.failed_attempts = C8S.failed_attempts ∧
        (admin_unblock C8S 7).1.verification_codes = C8S.verification_codes) :=
  ⟨by decide, C8_unblock_removes_block_entry_only C8S 7 (by decide)⟩

/-- Counterexample to C8 as stated: unblocking blocked identity 7, which
has counter 5 and owns the binding for key "K", leaves the counter at 5
(not reset to 0) and leaves the binding in place (not released). -/
theorem C8_counterexample :
    7 ∈ C8S.blocked_users ∧
      (admin_unblock C8S 7).1.failed_attempts 7 = 5 ∧
      (admin_unblock C8S 7).1.verification_codes "K" = some 7 := by
  exact ⟨by decide, by decide, by decide⟩

/-- C9 (amended): validation succeeds exactly when the status field is a
string comparing case-insensitively equal to "valid"; an absent status
field is treated as not-valid and counts as a failed attempt; but a present
non-string status field makes `.lower()` raise an uncaught AttributeError —
the handler crashes with no reply and no failed-attempt change, instead of
treating the malformed field as a not-valid outcome. -/
theorem C9_status_match_semantics
    (uid : UserId) (uname : Option String) (fname text url : String)
    (env : Env) (S : BotState)
    (hse : uid ∉ S.session_ended)
    (hrate : ((S.attempt_timestamps uid).filter
        (fun t => env.now - t < RATE_WINDOW)).length < RATE_LIMIT)
    (hgroup : env.inGroup = false)
    (hurl : url ≠ "") :
    (∀ s, statusIsValid (some (Json.jstr s))
        = Except.ok (pyLower s == "valid")) ∧
      statusIsValid none = Except.ok false ∧
      (env.validation = some none →
        S.failed_attempts uid + 1 < MAX_FAILED_ATTEMPTS →
        (handle_license "private" uid uname fname text url env S).sent
            = [Msg.invalidKey (MAX_FAILED_ATTEMPTS - (S.failed_attempts uid + 1))] ∧
          (handle_license "private" uid uname fname text url env S).s.failed_attempts
            uid = S.failed_attempts uid + 1) ∧
      (∀ j, env.validation = some (some j) → (∀ s, j ≠ Json.jstr s) →
        (handle_license "private" uid uname fname text url env S).exn = true ∧
          (handle_license "private" uid uname fname text url env S).sent = [] ∧
          (handle_license "private" uid uname fname text url env S).s.failed_attempts
            = S.failed_attempts) := by
  refine ⟨fun s => rfl, rfl, ?_, ?_⟩
  · intro hv hfa
    rw [handle_invalid_small uid uname fname text url env S none hse hrate
      hgroup hurl hv rfl hfa]
    exact ⟨rfl, by simp [updMap]⟩
  · intro j hv hj
    have hcr : statusIsValid (some j) = Except.error () := by
      cases j with
      | jstr s => exact absurd rfl (hj s)
      | jnum n => rfl
      | jbool b => rfl
      | jnull => rfl
    rw [handle_status_crash uid uname fname text url env S (some j) hse hrate
      hgroup hurl hv hcr]
    exact ⟨rfl, rfl, rfl⟩

/-- Witness for C9's amended theorem: identity 7 with an empty state. -/
theorem C9_status_match_semantics_witness :
    7 ∉ S_empty.session_ended ∧
      ((∀ s, statusIsValid (some (Json.jstr s))
          = Except.ok (pyLower s == "valid")) ∧
        statusIsValid none = Except.ok false ∧
        ((⟨false, some none, [], 0⟩ : Env).validation = some none →
          S_empty.failed_attempts 7 + 1 < MAX_FAILED_ATTEMPTS →
          (handle_license "private" 7 none "bob" "K" "u" ⟨false, some none, [], 0⟩
              S_empty).sent
              = [Msg.invalidKey
                  (MAX_FAILED_ATTEMPTS - (S_empty.failed_attempts 7 + 1))] ∧
            (handle_license "private" 7 none "bob" "K" "u"
              ⟨false, some none, [], 0⟩ S_empty).s.failed_attempts 7
              = S_empty.failed_attempts 7 + 1) ∧
        (∀ j, (⟨false, some none, [], 0⟩ : Env).validation = some (some j) →
          (∀ s, j ≠ Json.jstr s) →
          (handle_license "private" 7 none "bob" "K" "u" ⟨false, some none, [], 0⟩
              S_empty).exn = true ∧
            (handle_license "private" 7 none "bob" "K" "u"
              ⟨false, some none, [], 0⟩ S_empty).sent = [] ∧
            (handle_license "private" 7 none "bob" "K" "u"
              ⟨false, some none, [], 0⟩ S_empty).s.failed_attempts
              = S_empty.failed_attempts)) :=
  ⟨by decide,
    C9_status_match_semantics 7 none "bob" "K" "u" ⟨false, some none, [], 0⟩
      S_empty (by decide) (by decide) (by decide) (by decide)⟩

/-- Counterexample to C9 as stated: a well-formed response whose status
field is the JSON number 1 (malformed as a status) does not produce a
not-valid outcome: no reply is sent, the failed-attempt counter stays at 0,
and an uncaught exception escapes the handler. -/
theorem C9_counterexample :
    (handle_license "private" 7 none "bob" "K" "u"
        ⟨false, some (some (Json.jnum 1)), [], 0⟩ S_empty).exn = true ∧
      (handle_license "private" 7 none "bob" "K" "u"
        ⟨false, some (some (Json.jnum 1)), [], 0⟩ S_empty).sent = [] ∧
      (handle_license "private" 7 none "bob" "K" "u"
        ⟨false, some (some (Json.jnum 1)), [], 0⟩ S_empty).s.failed_attempts 7
        = 0 := by
  exact ⟨by decide, by decide, by decide⟩
